import Mathlib

/-!
Verification of the run-pipeline and telemetry core of the auto job applier.

The Python source is embedded shallowly:

* `shared/scoring.py` — `_tokenize`, `JobFitScorer._keyword_overlap` and
  `JobFitScorer.score` become pure functions over `String` and `ℚ`.  The
  external embedding backend (an HTTP service) is modelled by an
  `Option ℚ` argument holding the cosine-similarity value the backend
  returned (`none` when no client is configured or the call failed, which
  the code treats identically).
* `shared/telemetry.py` — `RunTracker` and its `record_result` /
  `record_error` / `finish` methods; the append-only event log becomes a
  `List RunSummary`.
* `shared/persistence.py` — `persist_run_summary` over an explicit
  relational `Store` (lists of rows); SQLite `INSERT OR REPLACE` becomes
  filter-out-then-append, plain `INSERT` becomes append.
* `orchestrator/engine.py` — `Orchestrator.run` as a fold over the
  discovered postings, with the fallible collaborators (resume tailor,
  application bot, embedding backend) passed in as `Except`-returning
  functions and the `try/finally` around the candidate loop made explicit.
* `web/server.py` — `OrchestratorRunner` as a state machine on
  `RunnerState`; `load_recent_runs` over an optional list of file lines,
  with `json.loads` modelled by an `Option`-returning parser argument.

Machine floats are modelled by `ℚ`; Python's `round(x, 4)` (round half to
even) becomes `round4`.
-/

/-! ## Python string primitives used by the code -/

/-- Model of Python's `str.strip()`: drop leading and trailing whitespace. -/
def pyStrip (s : String) : String :=
  String.mk (((s.data.dropWhile Char.isWhitespace).reverse.dropWhile Char.isWhitespace).reverse)

/-- Helper for `splitWords`: accumulates the current word (reversed) while
scanning the character list. -/
def splitWordsAux : List Char → List Char → List (List Char)
  | acc, [] => if acc.isEmpty then [] else [acc.reverse]
  | acc, c :: cs =>
    if c.isWhitespace then
      if acc.isEmpty then splitWordsAux [] cs
      else acc.reverse :: splitWordsAux [] cs
    else splitWordsAux (c :: acc) cs

/-- Model of Python's `str.split()` with no argument: split on runs of
whitespace, discarding empty pieces. -/
def splitWords (s : List Char) : List (List Char) :=
  splitWordsAux [] s

/-! ## shared/scoring.py -/

/-- Embeds `_tokenize` (scoring.py): lower-case every alphanumeric
character, replace every other character by a space, split on whitespace,
and keep only tokens longer than 2 characters. -/
def _tokenize (text : String) : List String :=
  let cleaned := text.data.map (fun ch => if ch.isAlphanum then ch.toLower else ' ')
  ((splitWords cleaned).map (fun w => String.mk w)).filter (fun token => token.length > 2)

/-- Embeds `JobFitScorer._keyword_overlap` (scoring.py).  `Counter`
frequency tables become `List.count`; `set(resume_counter) &
set(job_counter)` becomes the deduplicated resume tokens filtered by
membership in the job tokens; `sum(job_counter.values())` is kept in that
summed form (it equals the token-list length, proved separately). -/
def _keyword_overlap (resume_text job_description : String) : ℚ :=
  let resume_tokens := _tokenize resume_text
  let job_tokens := _tokenize job_description
  if resume_tokens.isEmpty ∨ job_tokens.isEmpty then 0
  else
    let common := resume_tokens.dedup.filter (fun token => token ∈ job_tokens)
    let overlap_score := (common.map (fun token =>
      min (resume_tokens.count token) (job_tokens.count token))).sum
    let normalization := (job_tokens.dedup.map (fun token => job_tokens.count token)).sum
    if normalization = 0 then 0
    else min 1 ((overlap_score : ℚ) / (normalization : ℚ))

/-- Round half to even at integer precision, the tie-breaking rule of
Python's built-in `round`. -/
def roundHalfEven (x : ℚ) : ℤ :=
  let f := ⌊x⌋
  let r := x - (f : ℚ)
  if r < 1/2 then f
  else if 1/2 < r then f + 1
  else if 2 ∣ f then f else f + 1

/-- Model of Python's `round(x, 4)`. -/
def round4 (x : ℚ) : ℚ :=
  ((roundHalfEven (x * 10000) : ℤ) : ℚ) / 10000

/-- Embeds `JobFitScorer.score` (scoring.py).  `embedding_score` is the
value returned by the external embedding backend: `none` covers both "no
client configured" and "the embedding call failed", which the code treats
identically (`embedding_score` stays `None`); `some e` is the cosine
similarity of the two returned vectors.  `fallback_weight` is the
configured `ScoringSettings.fallback_weight`. -/
def JobFitScorer_score (resume_text job_description : String)
    (embedding_score : Option ℚ) (fallback_weight : ℚ) : ℚ :=
  if pyStrip resume_text = "" ∨ pyStrip job_description = "" then 0
  else
    let keyword_score := _keyword_overlap resume_text job_description
    match embedding_score with
    | some e =>
      let weight := max 0 (min 1 fallback_weight)
      round4 (e * (1 - weight) + keyword_score * weight)
    | none => round4 keyword_score

/-- The lexical signal exactly as the specification words it: tokenize both
texts, return 0 when either token list is empty, otherwise sum
`min(count_in_source, count_in_target)` over tokens present in both
frequency tables, divide by the total token count of the target text, and
clamp the quotient to 1. -/
def specLexicalSignal (source_text target_text : String) : ℚ :=
  let source_tokens := _tokenize source_text
  let target_tokens := _tokenize target_text
  if source_tokens.isEmpty ∨ target_tokens.isEmpty then 0
  else
    let shared := source_tokens.dedup.filter (fun token => token ∈ target_tokens)
    let raw := (shared.map (fun token =>
      min (source_tokens.count token) (target_tokens.count token))).sum
    min 1 ((raw : ℚ) / (target_tokens.length : ℚ))

/-! ## Basic lemmas about the scoring arithmetic -/

/-- Mapping an equality indicator over a list and summing counts the element. -/
theorem sum_map_indicator {α : Type} [DecidableEq α] (l : List α) (a : α) :
    (l.map (fun b => if b = a then 1 else 0)).sum = l.count a := by
  induction l with
  | nil => rfl
  | cons x t ih =>
    simp only [List.map_cons, List.sum_cons, List.count_cons, ih]
    by_cases hx : x = a
    · subst hx; simp; omega
    · simp [hx, Ne.symm hx]

/-- Summing the multiplicity of each distinct element recovers the length;
this shows the `sum(job_counter.values())` normalizer of `_keyword_overlap`
equals the token count of the job description. -/
theorem sum_dedup_count_eq_length {α : Type} [DecidableEq α] (l : List α) :
    (l.dedup.map (fun a => l.count a)).sum = l.length := by
  induction l with
  | nil => rfl
  | cons a l ih =>
    by_cases h : a ∈ l
    · rw [List.dedup_cons_of_mem h]
      have hsplit : (l.dedup.map (fun b => (a :: l).count b)).sum
          = (l.dedup.map (fun b => l.count b + if b = a then 1 else 0)).sum := by
        congr 1
        refine List.map_congr_left (fun b _ => ?_)
        rw [List.count_cons]
        by_cases hba : b = a
        · simp [hba]
        · simp [hba, Ne.symm hba]
      rw [hsplit, List.sum_map_add, sum_map_indicator, List.count_dedup]
      simp [h, ih]
    · rw [List.dedup_cons_of_not_mem h]
      have hstep : (l.dedup.map (fun b => (a :: l).count b)).sum
          = (l.dedup.map (fun b => l.count b)).sum := by
        congr 1
        refine List.map_congr_left (fun b hb => ?_)
        have hbl : b ∈ l := List.mem_dedup.mp hb
        have hba : b ≠ a := fun hba => h (hba ▸ hbl)
        rw [List.count_cons]
        simp [hba, Ne.symm hba]
      simp only [List.map_cons, List.sum_cons, hstep, ih, List.length_cons]
      rw [List.count_cons]
      have hz : l.count a = 0 := List.count_eq_zero.mpr h
      simp [hz]
      omega

/-- `roundHalfEven` stays between the floor and the ceiling of its input. -/
theorem roundHalfEven_bounds (x : ℚ) :
    ⌊x⌋ ≤ roundHalfEven x ∧ roundHalfEven x ≤ ⌈x⌉ := by
  unfold roundHalfEven
  by_cases h1 : x - (⌊x⌋ : ℚ) < 1/2
  · simp only [h1, if_true]
    exact ⟨le_refl _, Int.floor_le_ceil x⟩
  · have hlt : (⌊x⌋ : ℚ) < x := by
      have : (1 : ℚ)/2 ≤ x - (⌊x⌋ : ℚ) := le_of_not_lt h1
      linarith
    have hceil : ⌊x⌋ + 1 ≤ ⌈x⌉ := Int.lt_ceil.mpr hlt
    by_cases h2 : (1 : ℚ)/2 < x - (⌊x⌋ : ℚ)
    · simp only [h1, h2, if_true, if_false]
      exact ⟨by omega, hceil⟩
    · by_cases h3 : 2 ∣ ⌊x⌋
      · simp only [h1, h2, h3, if_true, if_false]
        exact ⟨le_refl _, Int.floor_le_ceil x⟩
      · simp only [h1, h2, h3, if_true, if_false]
        exact ⟨by omega, hceil⟩

/-- `round4` maps `[0, 1]` into `[0, 1]`. -/
theorem round4_mem_unit {x : ℚ} (h0 : 0 ≤ x) (h1 : x ≤ 1) :
    0 ≤ round4 x ∧ round4 x ≤ 1 := by
  have hb := roundHalfEven_bounds (x * 10000)
  have hfl : (0 : ℤ) ≤ ⌊x * 10000⌋ := by
    rw [Int.le_floor]
    push_cast
    nlinarith
  have hcl : ⌈x * 10000⌉ ≤ 10000 := by
    rw [Int.ceil_le]
    push_cast
    nlinarith
  have hlo : (0 : ℤ) ≤ roundHalfEven (x * 10000) := le_trans hfl hb.1
  have hhi : roundHalfEven (x * 10000) ≤ 10000 := le_trans hb.2 hcl
  unfold round4
  constructor
  · apply div_nonneg _ (by norm_num)
    exact_mod_cast hlo
  · rw [div_le_one (by norm_num)]
    exact_mod_cast hhi

/-- `round4` fixes every rational that is already a multiple of `1/10000`;
in particular `round4 0 = 0` and `round4 1 = 1`. -/
theorem round4_int_mul (n : ℤ) : round4 ((n : ℚ) / 10000) = (n : ℚ) / 10000 := by
  unfold round4 roundHalfEven
  have hx : ((n : ℚ) / 10000) * 10000 = (n : ℚ) := by ring
  rw [hx]
  have hfl : ⌊(n : ℚ)⌋ = n := Int.floor_intCast n
  rw [hfl]
  simp

/-- The lexical overlap signal is never negative. -/
theorem keyword_overlap_nonneg (x y : String) : 0 ≤ _keyword_overlap x y := by
  unfold _keyword_overlap
  dsimp only
  split
  · exact le_refl 0
  · split
    · exact le_refl 0
    · exact le_min (by norm_num) (div_nonneg (Nat.cast_nonneg _) (Nat.cast_nonneg _))

/-- The lexical overlap signal is clamped to at most 1. -/
theorem keyword_overlap_le_one (x y : String) : _keyword_overlap x y ≤ 1 := by
  unfold _keyword_overlap
  dsimp only
  split
  · norm_num
  · split
    · norm_num
    · exact min_le_left _ _

/-- A text with at least one token overlaps itself with the full score 1:
every token is common and the multiset intersection covers the whole
frequency table. -/
theorem keyword_overlap_self (x : String) (h : _tokenize x ≠ []) :
    _keyword_overlap x x = 1 := by
  unfold _keyword_overlap
  dsimp only
  have hempty : (_tokenize x).isEmpty = false := by
    simp [List.isEmpty_iff, h]
  have hfilter : (_tokenize x).dedup.filter (fun token => token ∈ _tokenize x)
      = (_tokenize x).dedup :=
    List.filter_eq_self.mpr (fun a ha => by
      simpa using List.mem_dedup.mp ha)
  have hmin : ((_tokenize x).dedup.map (fun token =>
      min ((_tokenize x).count token) ((_tokenize x).count token))).sum
      = ((_tokenize x).dedup.map (fun token => (_tokenize x).count token)).sum := by
    congr 1
    exact List.map_congr_left (fun a _ => min_self _)
  have hnorm : ((_tokenize x).dedup.map (fun token => (_tokenize x).count token)).sum
      = (_tokenize x).length := sum_dedup_count_eq_length _
  have hlen : (_tokenize x).length ≠ 0 := fun hc => h (List.length_eq_zero.mp hc)
  simp only [hempty, Bool.false_eq_true, or_self, if_false, hfilter, hmin, hnorm]
  rw [if_neg hlen]
  rw [div_self (by exact_mod_cast hlen)]
  norm_num

/-- Two texts with disjoint token vocabularies have lexical overlap 0. -/
theorem keyword_overlap_disjoint (x u : String)
    (h : ∀ t ∈ _tokenize x, t ∉ _tokenize u) : _keyword_overlap x u = 0 := by
  unfold _keyword_overlap
  dsimp only
  split
  · rfl
  · have hfilter : (_tokenize x).dedup.filter (fun token => token ∈ _tokenize u)
        = [] := by
      simp only [List.filter_eq_nil_iff]
      intro a ha
      simpa using h a (List.mem_dedup.mp ha)
    simp only [hfilter, List.map_nil, List.sum_nil]
    split
    · rfl
    · rw [Nat.cast_zero, zero_div]
      norm_num

/-- C7 (confirmed): the code's `_keyword_overlap` equals the
specification's pure lexical-signal function `specLexicalSignal` (sum of
`min(count_in_source, count_in_target)` over tokens present in both
frequency tables, divided by the total token count of the target text,
clamped to 1, with 0 when either token list is empty).  The only textual
differences are the code's unreachable `normalization == 0` guard and its
writing of the normalizer as the sum of the frequency table's values
rather than the token count. -/
theorem C7_lexical_signal_matches_spec (x y : String) :
    _keyword_overlap x y = specLexicalSignal x y := by
  unfold _keyword_overlap specLexicalSignal
  dsimp only
  split
  · rfl
  · rename_i hne
    have hjob : ¬ (_tokenize y).isEmpty = true := fun hc => hne (Or.inr hc)
    have hjne : _tokenize y ≠ [] := fun hc => hjob (by simp [hc])
    have hnorm : ((_tokenize y).dedup.map (fun token => (_tokenize y).count token)).sum
        = (_tokenize y).length := sum_dedup_count_eq_length _
    have hlen : (_tokenize y).length ≠ 0 := fun hc => hjne (List.length_eq_zero.mp hc)
    rw [hnorm, if_neg hlen]


/-- `round4 0 = 0`. -/
theorem round4_zero : round4 0 = 0 := by
  have h := round4_int_mul 0
  simpa using h

/-- `round4 1 = 1`. -/
theorem round4_one : round4 1 = 1 := by
  have h := round4_int_mul 10000
  have h1 : ((10000 : ℤ) : ℚ) / 10000 = 1 := by norm_num
  rw [h1] at h
  exact h

/-- A convex blend of two values in `[0, 1]` stays in `[0, 1]`. -/
theorem blend_mem_unit {e lex w : ℚ} (he0 : 0 ≤ e) (he1 : e ≤ 1)
    (hl0 : 0 ≤ lex) (hl1 : lex ≤ 1) (hw0 : 0 ≤ w) (hw1 : w ≤ 1) :
    0 ≤ e * (1 - w) + lex * w ∧ e * (1 - w) + lex * w ≤ 1 := by
  constructor <;> nlinarith

/-- The clamped fallback weight lies in `[0, 1]`. -/
theorem clamped_weight_mem_unit (w : ℚ) :
    0 ≤ max 0 (min 1 w) ∧ max 0 (min 1 w) ≤ 1 :=
  ⟨le_max_left _ _, max_le (by norm_num) (min_le_left _ _)⟩

/-! ## Claim C6 and C9 theorems (scoring contract) -/

/-- C6 counterexample: `score` can return a negative value, outside the
claimed range `[0, 1]`.  With both texts the non-blank `"hello world"`, a
successful external embedding whose cosine similarity is `-1` (e.g. the
backend returns the one-dimensional vectors `[1.0]` and `[-1.0]`), and the
configured fallback weight `0.3`, the blend is
`-1 * 0.7 + 1 * 0.3 = -0.4`, and `round(-0.4, 4) = -0.4 < 0`. -/
theorem C6_counterexample :
    JobFitScorer_score "hello world" "hello world" (some (-1)) (3/10) < 0 := by
  have htok : _tokenize "hello world" ≠ [] := by decide
  have hov : _keyword_overlap "hello world" "hello world" = 1 :=
    keyword_overlap_self _ htok
  have hstrip : ¬ (pyStrip "hello world" = "" ∨ pyStrip "hello world" = "") := by
    decide
  unfold JobFitScorer_score
  rw [if_neg hstrip]
  dsimp only
  rw [hov]
  have hw : max 0 (min 1 (3/10 : ℚ)) = 3/10 := by norm_num
  rw [hw]
  have harg : (-1 : ℚ) * (1 - 3/10) + 1 * (3/10) = ((-4000 : ℤ) : ℚ) / 10000 := by
    norm_num
  rw [harg, round4_int_mul]
  norm_num

/-- C6 (amended): `score` returns 0 when either input is blank after
trimming; otherwise it returns `round4` of the lexical signal alone when
the external embedding signal is absent, and `round4` of the blend
`external * (1 - w) + lexical * w` (with the configured fallback weight `w`
clamped to `[0, 1]`) when it succeeded.  The result lies in `[0, 1]`
whenever the external signal is absent or itself lies in `[0, 1]`; a
negative external cosine similarity can push it below 0 (see the
counterexample), so the unconditional `[0, 1]` range of the original claim
does not hold. -/
theorem C6_score_blend_contract (x y : String) (e : Option ℚ) (w : ℚ) :
    (pyStrip x = "" ∨ pyStrip y = "" → JobFitScorer_score x y e w = 0)
    ∧ (¬ (pyStrip x = "" ∨ pyStrip y = "") →
        JobFitScorer_score x y none w = round4 (_keyword_overlap x y)
        ∧ ∀ v, JobFitScorer_score x y (some v) w
            = round4 (v * (1 - max 0 (min 1 w))
              + _keyword_overlap x y * max 0 (min 1 w)))
    ∧ ((e = none ∨ ∃ v, e = some v ∧ 0 ≤ v ∧ v ≤ 1) →
        0 ≤ JobFitScorer_score x y e w ∧ JobFitScorer_score x y e w ≤ 1) := by
  refine ⟨?_, ?_, ?_⟩
  · intro h
    unfold JobFitScorer_score
    rw [if_pos h]
  · intro h
    constructor
    · unfold JobFitScorer_score
      rw [if_neg h]
    · intro v
      unfold JobFitScorer_score
      rw [if_neg h]
  · intro he
    by_cases hblank : pyStrip x = "" ∨ pyStrip y = ""
    · unfold JobFitScorer_score
      rw [if_pos hblank]
      norm_num
    · have hl0 := keyword_overlap_nonneg x y
      have hl1 := keyword_overlap_le_one x y
      rcases he with he | ⟨v, hev, hv0, hv1⟩
      · subst he
        unfold JobFitScorer_score
        rw [if_neg hblank]
        exact round4_mem_unit hl0 hl1
      · subst hev
        unfold JobFitScorer_score
        rw [if_neg hblank]
        dsimp only
        have hw := clamped_weight_mem_unit w
        have hb := blend_mem_unit hv0 hv1 hl0 hl1 hw.1 hw.2
        exact round4_mem_unit hb.1 hb.2

/-- Closed witness instantiating `C6_score_blend_contract`: lexical-only
scoring of two concrete texts stays in `[0, 1]`. -/
theorem C6_score_blend_contract_witness :
    0 ≤ JobFitScorer_score "python developer" "gardening tools" none (3/10)
    ∧ JobFitScorer_score "python developer" "gardening tools" none (3/10) ≤ 1 :=
  (C6_score_blend_contract "python developer" "gardening tools" none (3/10)).2.2
    (Or.inl rfl)

/-- C9 counterexample: the non-empty text `"ab"` has no token longer than
2 characters, so it scores 0 against itself, which is not strictly greater
than the 0 it scores against the vocabulary-disjoint text `"unrelated"`. -/
theorem C9_counterexample :
    "ab" ≠ ""
    ∧ (∀ t ∈ _tokenize "ab", t ∉ _tokenize "unrelated")
    ∧ ¬ (JobFitScorer_score "ab" "unrelated" none (3/10)
        < JobFitScorer_score "ab" "ab" none (3/10)) := by
  have hov1 : _keyword_overlap "ab" "ab" = 0 := by
    unfold _keyword_overlap
    dsimp only
    rw [if_pos (Or.inl (by decide))]
  have hov2 : _keyword_overlap "ab" "unrelated" = 0 := by
    unfold _keyword_overlap
    dsimp only
    rw [if_pos (Or.inl (by decide))]
  have hs1 : JobFitScorer_score "ab" "ab" none (3/10) = 0 := by
    unfold JobFitScorer_score
    rw [if_neg (by decide)]
    dsimp only
    rw [hov1, round4_zero]
  have hs2 : JobFitScorer_score "ab" "unrelated" none (3/10) = 0 := by
    unfold JobFitScorer_score
    rw [if_neg (by decide)]
    dsimp only
    rw [hov2, round4_zero]
  refine ⟨by decide, by decide, ?_⟩
  rw [hs1, hs2]
  norm_num

/-- C9 (amended): for every text `x` that yields at least one token (an
alphanumeric word longer than 2 characters) and is non-blank, and every
text `u` whose token vocabulary is disjoint from `x`'s, lexical-only
scoring gives `score(x, x) = 1` strictly greater than `score(x, u) = 0`. -/
theorem C9_self_overlap_dominates (x u : String) (w : ℚ)
    (hx : _tokenize x ≠ []) (hxs : pyStrip x ≠ "")
    (hdisj : ∀ t ∈ _tokenize x, t ∉ _tokenize u) :
    JobFitScorer_score x u none w < JobFitScorer_score x x none w := by
  have hself : JobFitScorer_score x x none w = 1 := by
    unfold JobFitScorer_score
    rw [if_neg (by simp [hxs])]
    dsimp only
    rw [keyword_overlap_self x hx, round4_one]
  have hother : JobFitScorer_score x u none w = 0 := by
    unfold JobFitScorer_score
    by_cases hu : pyStrip u = ""
    · rw [if_pos (Or.inr hu)]
    · rw [if_neg (by simp [hxs, hu])]
      dsimp only
      rw [keyword_overlap_disjoint x u hdisj, round4_zero]
  rw [hself, hother]
  norm_num

/-- Closed witness instantiating `C9_self_overlap_dominates` at concrete
vocabulary-disjoint texts. -/
theorem C9_self_overlap_dominates_witness :
    JobFitScorer_score "python developer" "gardening herbs" none (3/10)
    < JobFitScorer_score "python developer" "python developer" none (3/10) :=
  C9_self_overlap_dominates "python developer" "gardening herbs" (3/10)
    (by decide) (by decide) (by decide)

/-! ## shared/models.py (the fields the core reads) -/

/-- Embeds the `JobPosting` fields the pipeline and telemetry read. -/
structure JobPosting where
  title : String
  company : String
  source : String
  description : String
deriving DecidableEq

/-- Embeds the `ApplicationResult` fields the core reads: the posting it
answers, the submission status, the submission timestamp (kept abstract as a
string), optional notes and the optional fit score attached by the
orchestrator after submission. -/
structure ApplicationResult where
  job : JobPosting
  status : String
  submitted_at : String
  notes : Option String
  fit_score : Option ℚ
deriving DecidableEq

/-- Embeds `JobSearchQuery`. -/
structure JobSearchQuery where
  keywords : List String
  locations : List String
  min_compensation : Option Int
deriving DecidableEq

/-! ## shared/telemetry.py -/

/-- One entry of `RunTracker._results`, the dict built by `record_result`. -/
structure ResultRecord where
  job_title : String
  company : String
  status : String
  submitted_at : String
  notes : Option String
  source : String
  fit_score : Option ℚ
deriving DecidableEq

/-- One entry of `RunTracker._errors`, the dict built by `record_error`. -/
structure ErrorRecord where
  job_title : String
  company : String
  source : String
  error : String
deriving DecidableEq

/-- Embeds the mutable state of a `RunTracker` (telemetry.py).  The lock
only serializes accesses; the accumulated state is the two lists. -/
structure RunTracker where
  query : JobSearchQuery
  run_id : String
  started_at : String
  results : List ResultRecord
  errors : List ErrorRecord
deriving DecidableEq

/-- Embeds `RunTracker.record_result`: append the projected record. -/
def RunTracker.record_result (t : RunTracker) (result : ApplicationResult) : RunTracker :=
  { t with results := t.results ++ [{
      job_title := result.job.title
      company := result.job.company
      status := result.status
      submitted_at := result.submitted_at
      notes := result.notes
      source := result.job.source
      fit_score := result.fit_score }] }

/-- Embeds `RunTracker.record_error`: append the projected error record. -/
def RunTracker.record_error (t : RunTracker) (job : JobPosting) (error : String) : RunTracker :=
  { t with errors := t.errors ++ [{
      job_title := job.title
      company := job.company
      source := job.source
      error := error }] }

/-- The sort key `finish` uses: `record.get("fit_score") or 0.0`, i.e. a
missing (or zero) score counts as 0. -/
def fitKey (r : ResultRecord) : ℚ :=
  r.fit_score.getD 0

/-- Stable descending insertion: walk past strictly greater keys, then
place the new element in front of the first entry whose key is not
greater, so that earlier elements with equal keys stay earlier. -/
def insertByDesc {α : Type} (key : α → ℚ) (x : α) : List α → List α
  | [] => [x]
  | y :: ys => if key x < key y then y :: insertByDesc key x ys else x :: y :: ys

/-- Model of Python's stable `sorted(-, key=-, reverse=True)`: sort
descending by key, preserving original order between equal keys. -/
def sortByDesc {α : Type} (key : α → ℚ) : List α → List α
  | [] => []
  | x :: xs => insertByDesc key x (sortByDesc key xs)

/-- The `Counter(status for ...)` histogram of `finish`, in first-seen
order of the status strings. -/
def statusCounts (results : List ResultRecord) : List (String × Nat) :=
  (results.map (fun r => r.status)).dedup.map
    (fun s => (s, (results.map (fun r => r.status)).count s))

/-- The summary dict assembled and sealed by `RunTracker.finish`. -/
structure RunSummary where
  run_id : String
  started_at : String
  ended_at : String
  keywords : List String
  locations : List String
  min_compensation : Option Int
  result_count : Nat
  status_counts : List (String × Nat)
  errors : List ErrorRecord
  results : List ResultRecord
  top_matches : List ResultRecord
deriving DecidableEq

/-- Embeds the summary construction of `RunTracker.finish`
(telemetry.py): end timestamp, histogram, full lists and the top-3 subset
of the results sorted descending by fit score (missing score counted 0,
stable on ties). -/
def RunTracker.finish (t : RunTracker) (ended_at : String) : RunSummary :=
  let sorted_results := sortByDesc fitKey t.results
  { run_id := t.run_id
    started_at := t.started_at
    ended_at := ended_at
    keywords := t.query.keywords
    locations := t.query.locations
    min_compensation := t.query.min_compensation
    result_count := t.results.length
    status_counts := statusCounts t.results
    errors := t.errors
    results := t.results
    top_matches := sorted_results.take 3 }

/-! ## shared/persistence.py -/

/-- One row of the `runs` table. -/
structure RunsRow where
  id : String
  started_at : String
  ended_at : String
  keywords : List String
  locations : List String
  min_comp : Option Int
  result_count : Nat
deriving DecidableEq

/-- One row of the `applications` table. -/
structure AppRow where
  run_id : String
  job_title : String
  company : String
  source : String
  status : String
  submitted_at : String
  notes : Option String
  fit_score : Option ℚ
deriving DecidableEq

/-- One row of the `feedback` table. -/
structure FeedbackRow where
  run_id : String
  job_title : String
  company : String
  feedback : String
  received_at : String
deriving DecidableEq

/-- The normalized durable store: the three tables of `_ensure_schema`. -/
structure Store where
  runs : List RunsRow
  applications : List AppRow
  feedback : List FeedbackRow
deriving DecidableEq

/-- The `applications` row built from one result record of a summary. -/
def appRowOfResult (run_id : String) (r : ResultRecord) : AppRow :=
  { run_id := run_id
    job_title := r.job_title
    company := r.company
    source := r.source
    status := r.status
    submitted_at := r.submitted_at
    notes := r.notes
    fit_score := r.fit_score }

/-- Embeds `persist_run_summary` (persistence.py): `INSERT OR REPLACE`
into `runs` (drop any row with the same id, then insert the new row) and a
plain `INSERT` of one `applications` row per result; `feedback` is not
touched. -/
def persist_run_summary (summary : RunSummary) (store : Store) : Store :=
  { runs := store.runs.filter (fun row => row.id ≠ summary.run_id)
      ++ [{ id := summary.run_id
            started_at := summary.started_at
            ended_at := summary.ended_at
            keywords := summary.keywords
            locations := summary.locations
            min_comp := summary.min_compensation
            result_count := summary.result_count }]
    applications := store.applications
      ++ summary.results.map (appRowOfResult summary.run_id)
    feedback := store.feedback }

/-- The world the journal writes to at flush time: the append-only event
log (`logs/run_history.jsonl`, one summary per line, newest at end) and
the normalized store. -/
structure TelemetryWorld where
  log : List RunSummary
  store : Store
deriving DecidableEq

/-- Embeds the effectful part of `RunTracker.finish`: seal the summary,
append it to the event log (`_write`) and upsert it into the normalized
store (`persist_run_summary`). -/
def RunTracker.finishIO (t : RunTracker) (ended_at : String)
    (w : TelemetryWorld) : RunSummary × TelemetryWorld :=
  let summary := t.finish ended_at
  (summary, { log := w.log ++ [summary], store := persist_run_summary summary w.store })

/-! ## Lemmas about the stable descending sort -/

/-- Membership in a stable descending insertion. -/
theorem mem_insertByDesc {α : Type} (key : α → ℚ) (x b : α) (l : List α) :
    b ∈ insertByDesc key x l ↔ b = x ∨ b ∈ l := by
  induction l with
  | nil => simp [insertByDesc]
  | cons y ys ih =>
    unfold insertByDesc
    by_cases h : key x < key y
    · simp only [h, if_true, List.mem_cons, ih]
      tauto
    · simp [h]

/-- Stable descending insertion is a permutation of pushing in front. -/
theorem insertByDesc_perm {α : Type} (key : α → ℚ) (x : α) (l : List α) :
    (insertByDesc key x l).Perm (x :: l) := by
  induction l with
  | nil => simp [insertByDesc]
  | cons y ys ih =>
    unfold insertByDesc
    by_cases h : key x < key y
    · simp only [h, if_true]
      exact (List.Perm.cons y ih).trans (List.Perm.swap x y ys)
    · simp [h]

/-- The stable descending sort permutes its input. -/
theorem sortByDesc_perm {α : Type} (key : α → ℚ) (l : List α) :
    (sortByDesc key l).Perm l := by
  induction l with
  | nil => exact List.Perm.refl _
  | cons x xs ih =>
    exact (insertByDesc_perm key x (sortByDesc key xs)).trans (List.Perm.cons x ih)

/-- Stable descending insertion preserves the sorted-descending invariant. -/
theorem insertByDesc_pairwise {α : Type} (key : α → ℚ) (x : α) (l : List α)
    (h : l.Pairwise (fun a b => key b ≤ key a)) :
    (insertByDesc key x l).Pairwise (fun a b => key b ≤ key a) := by
  induction l with
  | nil => simp [insertByDesc]
  | cons y ys ih =>
    rw [List.pairwise_cons] at h
    unfold insertByDesc
    by_cases hxy : key x < key y
    · simp only [hxy, if_true]
      rw [List.pairwise_cons]
      refine ⟨fun b hb => ?_, ih h.2⟩
      rcases (mem_insertByDesc key x b ys).mp hb with hb | hb
      · exact hb ▸ le_of_lt hxy
      · exact h.1 b hb
    · simp only [hxy, if_false]
      rw [List.pairwise_cons]
      refine ⟨fun b hb => ?_, List.pairwise_cons.mpr h⟩
      rcases List.mem_cons.mp hb with hb | hb
      · exact hb ▸ le_of_not_lt hxy
      · exact le_trans (h.1 b hb) (le_of_not_lt hxy)

/-- The stable descending sort is sorted descending by key. -/
theorem sortByDesc_pairwise {α : Type} (key : α → ℚ) (l : List α) :
    (sortByDesc key l).Pairwise (fun a b => key b ≤ key a) := by
  induction l with
  | nil => exact List.Pairwise.nil
  | cons x xs ih => exact insertByDesc_pairwise key x _ ih

/-! ## Claim C2 theorems (flush idempotence) -/

/-- A concrete sealed summary with one outcome, used to refute C2. -/
def exampleSummary : RunSummary :=
  { run_id := "run-1"
    started_at := "2026-01-01T00:00:00"
    ended_at := "2026-01-01T00:05:00"
    keywords := ["engineer"]
    locations := ["Remote"]
    min_compensation := some 100000
    result_count := 1
    status_counts := [("submitted", 1)]
    errors := []
    results := [{ job_title := "Engineer"
                  company := "Acme"
                  status := "submitted"
                  submitted_at := "2026-01-01T00:04:00"
                  notes := none
                  source := "remoteok"
                  fit_score := none }]
    top_matches := [{ job_title := "Engineer"
                      company := "Acme"
                      status := "submitted"
                      submitted_at := "2026-01-01T00:04:00"
                      notes := none
                      source := "remoteok"
                      fit_score := none }] }

/-- C2 counterexample: flushing the same summary twice does not leave the
normalized store in the same state as flushing it once — the second flush
re-inserts the summary's `applications` rows, duplicating them. -/
theorem C2_counterexample :
    persist_run_summary exampleSummary (persist_run_summary exampleSummary ⟨[], [], []⟩)
      ≠ persist_run_summary exampleSummary ⟨[], [], []⟩ := by
  intro h
  have happ := congrArg (fun s => s.applications.length) h
  simp [persist_run_summary, exampleSummary] at happ

/-- C2 (amended): a second flush of the same summary replaces the `runs`
row by upsert (no duplicate there) and leaves `feedback` untouched, but
appends the summary's `applications` rows again, so application rows are
duplicated whenever the summary has at least one outcome; only a summary
with an empty outcome list flushes idempotently. -/
theorem C2_flush_upsert_behavior (s : RunSummary) (store : Store) :
    (persist_run_summary s (persist_run_summary s store)).runs
      = (persist_run_summary s store).runs
    ∧ (persist_run_summary s (persist_run_summary s store)).feedback
      = (persist_run_summary s store).feedback
    ∧ (persist_run_summary s (persist_run_summary s store)).applications
      = (persist_run_summary s store).applications
        ++ s.results.map (appRowOfResult s.run_id)
    ∧ (s.results = [] →
        persist_run_summary s (persist_run_summary s store)
          = persist_run_summary s store) := by
  refine ⟨?_, rfl, rfl, ?_⟩
  · simp [persist_run_summary, List.filter_append, List.filter_filter]
  · intro h
    simp [persist_run_summary, List.filter_append, List.filter_filter, h]

/-- Closed witness instantiating `C2_flush_upsert_behavior`: a summary
with no outcomes flushes idempotently. -/
theorem C2_flush_upsert_behavior_witness :
    persist_run_summary { exampleSummary with results := [] }
        (persist_run_summary { exampleSummary with results := [] } ⟨[], [], []⟩)
      = persist_run_summary { exampleSummary with results := [] } ⟨[], [], []⟩ :=
  (C2_flush_upsert_behavior { exampleSummary with results := [] }
    ⟨[], [], []⟩).2.2.2 rfl

/-! ## Claim C8 theorem (top-matches subset) -/

/-- Outcome with fit score 0.2, for the C8 example. -/
def exOutcome02 : ResultRecord :=
  { job_title := "J1", company := "C1", status := "submitted",
    submitted_at := "t1", notes := none, source := "s", fit_score := some (1/5) }

/-- First outcome with fit score 0.9, for the C8 example. -/
def exOutcome09a : ResultRecord :=
  { job_title := "J2", company := "C2", status := "submitted",
    submitted_at := "t2", notes := none, source := "s", fit_score := some (9/10) }

/-- Outcome with fit score 0.5, for the C8 example. -/
def exOutcome05 : ResultRecord :=
  { job_title := "J3", company := "C3", status := "submitted",
    submitted_at := "t3", notes := none, source := "s", fit_score := some (1/2) }

/-- Second outcome with fit score 0.9, for the C8 example. -/
def exOutcome09b : ResultRecord :=
  { job_title := "J4", company := "C4", status := "submitted",
    submitted_at := "t4", notes := none, source := "s", fit_score := some (9/10) }

/-- Outcome with a missing fit score, for the C8 example. -/
def exOutcomeNull : ResultRecord :=
  { job_title := "J5", company := "C5", status := "submitted",
    submitted_at := "t5", notes := none, source := "s", fit_score := none }

/-- A tracker holding the C8 example outcomes in order
[0.2, 0.9, 0.5, 0.9, null]. -/
def exTracker : RunTracker :=
  { query := { keywords := ["engineer"], locations := ["Remote"], min_compensation := none }
    run_id := "run-ex"
    started_at := "t0"
    results := [exOutcome02, exOutcome09a, exOutcome05, exOutcome09b, exOutcomeNull]
    errors := [] }

/-- C8 (confirmed): the sealed summary's top-matches subset is the first 3
elements of the outcome list stably sorted descending by fit score with a
missing score treated as 0, hence has length at most 3, is sorted
descending, and is drawn from a permutation of the outcome list; the
summary's `result_count` equals the length of its outcome list; and on the
outcome scores [0.2, 0.9, 0.5, 0.9, null] the top-3 is the two 0.9-scored
outcomes in original relative order followed by the 0.5-scored one. -/
theorem C8_top_matches_contract (t : RunTracker) (ended_at : String) :
    ((t.finish ended_at).top_matches = (sortByDesc fitKey t.results).take 3
    ∧ (t.finish ended_at).top_matches.length ≤ 3
    ∧ (t.finish ended_at).top_matches.Pairwise (fun a b => fitKey b ≤ fitKey a)
    ∧ (sortByDesc fitKey t.results).Perm t.results
    ∧ (t.finish ended_at).result_count = (t.finish ended_at).results.length)
    ∧ (exTracker.finish "t6").top_matches
        = [exOutcome09a, exOutcome09b, exOutcome05] := by
  refine ⟨⟨rfl, ?_, ?_, sortByDesc_perm fitKey t.results, rfl⟩, ?_⟩
  · show ((sortByDesc fitKey t.results).take 3).length ≤ 3
    rw [List.length_take]
    exact min_le_left _ _
  · show ((sortByDesc fitKey t.results).take 3).Pairwise _
    exact (sortByDesc_pairwise fitKey t.results).sublist (List.take_sublist _ _)
  · show (sortByDesc fitKey exTracker.results).take 3 = _
    norm_num [exTracker, sortByDesc, insertByDesc, fitKey,
      exOutcome02, exOutcome09a, exOutcome05, exOutcome09b, exOutcomeNull]

/-! ## orchestrator/engine.py -/

/-- A stage collaborator failure: `known` is the stage's own error class
(`TailoringError` for the tailor stage, `ApplicationError` for the submit
stage), `unexpected` is any other exception, caught by the bare
`except Exception` guards. -/
inductive StageFailure where
  | known : String → StageFailure
  | unexpected : String → StageFailure
deriving DecidableEq

/-- The collaborators `Orchestrator.run` calls, passed in as functions:
the profile's base resume text, the resume tailor (returns the tailored
resume text or fails), the application bot (returns an
`ApplicationResult` or fails), the external embedding backend's response
for a (resume, description) pair, and the configured scoring fallback
weight. -/
structure OrchestratorEnv where
  resume_text : String
  tailorResume : JobPosting → Except StageFailure String
  submitApplication : JobPosting → String → Except StageFailure ApplicationResult
  embed : String → String → Option ℚ
  fallback_weight : ℚ

/-- Embeds one iteration of the candidate loop of `Orchestrator.run`:
tailor (recording a tagged error and skipping the candidate on failure),
score, submit (attaching the fit score to the returned result and
recording it, or recording a tagged error).  The accumulator carries the
tracker and the list of results the generator has yielded. -/
def Orchestrator.processJob (env : OrchestratorEnv)
    (acc : RunTracker × List ApplicationResult) (job : JobPosting) :
    RunTracker × List ApplicationResult :=
  let (tracker, yielded) := acc
  match env.tailorResume job with
  | .error (.known msg) =>
      (tracker.record_error job ("Tailoring failed: " ++ msg), yielded)
  | .error (.unexpected msg) =>
      (tracker.record_error job ("Unexpected tailoring error: " ++ msg), yielded)
  | .ok tailored_resume =>
    let fit_score := JobFitScorer_score env.resume_text job.description
      (env.embed env.resume_text job.description) env.fallback_weight
    match env.submitApplication job tailored_resume with
    | .ok application_result =>
      let application_result := { application_result with fit_score := some fit_score }
      (tracker.record_result application_result, yielded ++ [application_result])
    | .error (.known msg) =>
      (tracker.record_error job ("Application failed: " ++ msg), yielded)
    | .error (.unexpected msg) =>
      (tracker.record_error job ("Unexpected application error: " ++ msg), yielded)

/-- The value a completed run yields to its caller: the results the
generator produced and the sealed summary. -/
structure RunOutput where
  yielded : List ApplicationResult
  summary : RunSummary
deriving DecidableEq

/-- Embeds `Orchestrator.run` (engine.py).  `discovery` is the outcome of
`self._scraper_service.discover(query)`, which runs BEFORE the tracker is
created: a discovery failure propagates immediately and the telemetry
world is untouched.  On success the candidate list is truncated to
`max_jobs`, the tracker is created, the candidate loop runs with each
stage guarded, and the `try/finally` invokes `tracker.finish()`
(event-log append + store upsert) before the run completes. -/
def Orchestrator.run (env : OrchestratorEnv) (query : JobSearchQuery)
    (run_id started_at ended_at : String)
    (discovery : Except String (List JobPosting)) (max_jobs : Option Nat)
    (world : TelemetryWorld) : Except String RunOutput × TelemetryWorld :=
  match discovery with
  | .error e => (.error e, world)
  | .ok jobs0 =>
    let jobs := match max_jobs with
      | some n => jobs0.take n
      | none => jobs0
    let tracker0 : RunTracker :=
      { query := query, run_id := run_id, started_at := started_at,
        results := [], errors := [] }
    let (tracker, yielded) := jobs.foldl (Orchestrator.processJob env) (tracker0, [])
    let (summary, world') := tracker.finishIO ended_at world
    (.ok { yielded := yielded, summary := summary }, world')

/-! ## Claim C1 theorems (unconditional flush vs. discovery failure) -/

/-- C1 counterexample: when discovery itself fails, `Orchestrator.run`
raises before the tracker exists — the world (event log and store) is
returned untouched, so no sealed zero-count summary is produced, contrary
to the claim. -/
theorem C1_counterexample :
    Orchestrator.run
      { resume_text := "python developer"
        tailorResume := fun j => .ok ("doc " ++ j.title)
        submitApplication := fun j _ =>
          .ok { job := j, status := "submitted", submitted_at := "t",
                notes := none, fit_score := none }
        embed := fun _ _ => none
        fallback_weight := 3/10 }
      { keywords := ["engineer"], locations := ["Remote"], min_compensation := none }
      "rid" "t0" "t1" (.error "scraper crashed") none ⟨[], ⟨[], [], []⟩⟩
      = (.error "scraper crashed", ⟨[], ⟨[], [], []⟩⟩) := rfl

/-- C1 (amended): `tracker.finish()` is invoked unconditionally once
discovery has succeeded — every such run, including a zero-candidate one,
appends exactly one sealed summary to the event log and upserts it into
the store, and a zero-candidate run's summary has zero counts — but when
discovery itself raises, the tracker is never created, nothing is flushed,
and the discovery error propagates to the caller with the telemetry world
unchanged. -/
theorem C1_finish_flushed_iff_discovery_ok (env : OrchestratorEnv)
    (q : JobSearchQuery) (rid st et : String) (mj : Option Nat)
    (w : TelemetryWorld) :
    (∀ jobs : List JobPosting, ∃ out : RunOutput,
        Orchestrator.run env q rid st et (.ok jobs) mj w
          = (.ok out, { log := w.log ++ [out.summary],
                        store := persist_run_summary out.summary w.store }))
    ∧ (∃ out : RunOutput,
        Orchestrator.run env q rid st et (.ok []) mj w
          = (.ok out, { log := w.log ++ [out.summary],
                        store := persist_run_summary out.summary w.store })
        ∧ out.summary.result_count = 0 ∧ out.summary.errors = [])
    ∧ (∀ e : String,
        Orchestrator.run env q rid st et (.error e) mj w = (.error e, w)) := by
  refine ⟨fun jobs => ⟨_, rfl⟩, ?_, fun e => rfl⟩
  cases mj with
  | none => exact ⟨_, rfl, rfl, rfl⟩
  | some n =>
    exact ⟨_, rfl, by simp [Orchestrator.run, RunTracker.finish],
      by simp [Orchestrator.run, RunTracker.finish]⟩

/-! ## Claim C3 theorem (per-candidate failure isolation) -/

/-- The fit score the orchestrator computes for one posting. -/
def fitOf (env : OrchestratorEnv) (j : JobPosting) : ℚ :=
  JobFitScorer_score env.resume_text j.description
    (env.embed env.resume_text j.description) env.fallback_weight

/-- The result the orchestrator yields for a fully successful posting:
the bot's result with the computed fit score attached. -/
def yieldedOf (env : OrchestratorEnv) (resOf : JobPosting → ApplicationResult)
    (j : JobPosting) : ApplicationResult :=
  { resOf j with fit_score := some (fitOf env j) }

/-- The tracker record produced for a fully successful posting. -/
def recordOf (env : OrchestratorEnv) (resOf : JobPosting → ApplicationResult)
    (j : JobPosting) : ResultRecord :=
  { job_title := (resOf j).job.title
    company := (resOf j).job.company
    status := (resOf j).status
    submitted_at := (resOf j).submitted_at
    notes := (resOf j).notes
    source := (resOf j).job.source
    fit_score := some (fitOf env j) }

/-- A posting for which the tailor stage returns `docOf j` and the submit
stage accepts that document, returning `resOf j`. -/
def goodStep (env : OrchestratorEnv) (docOf : JobPosting → String)
    (resOf : JobPosting → ApplicationResult) (j : JobPosting) : Prop :=
  env.tailorResume j = .ok (docOf j)
  ∧ env.submitApplication j (docOf j) = .ok (resOf j)

/-- Folding the candidate loop over postings that all succeed appends one
result record and one yielded result per posting, touching no errors. -/
theorem foldl_processJob_good (env : OrchestratorEnv)
    (docOf : JobPosting → String) (resOf : JobPosting → ApplicationResult) :
    ∀ (l : List JobPosting) (t : RunTracker) (y : List ApplicationResult),
      (∀ j ∈ l, goodStep env docOf resOf j) →
      l.foldl (Orchestrator.processJob env) (t, y)
        = ({ t with results := t.results ++ l.map (recordOf env resOf) },
           y ++ l.map (yieldedOf env resOf)) := by
  intro l
  induction l with
  | nil => intro t y _; simp
  | cons j l ih =>
    intro t y h
    have hj := h j (List.mem_cons_self j l)
    rw [List.foldl_cons]
    have hstep : Orchestrator.processJob env (t, y) j
        = (t.record_result (yieldedOf env resOf j), y ++ [yieldedOf env resOf j]) := by
      unfold Orchestrator.processJob
      rw [hj.1]
      dsimp only
      rw [hj.2]
      rfl
    rw [hstep, ih _ _ (fun a ha => h a (List.mem_cons_of_mem j ha))]
    simp [RunTracker.record_result, recordOf, yieldedOf]

/-- A tailor-stage failure records a tagged error and skips the posting. -/
theorem processJob_tailor_failure (env : OrchestratorEnv) (t : RunTracker)
    (y : List ApplicationResult) (j : JobPosting) (msg : String)
    (h : env.tailorResume j = .error (.known msg)) :
    Orchestrator.processJob env (t, y) j
      = (t.record_error j ("Tailoring failed: " ++ msg), y) := by
  unfold Orchestrator.processJob
  rw [h]

/-- C3 (confirmed): in a run over `pre ++ bad :: post` where exactly the
posting `bad` fails at the tailoring stage and every other posting passes
both stages, the sealed summary records exactly one outcome per other
posting (`N − 1` outcomes), exactly one error — referencing `bad` and
tagged "Tailoring failed" — and no outcome for `bad`; the run still
completes, flushing the summary to the event log and the store. -/
theorem C3_failure_isolation (env : OrchestratorEnv)
    (q : JobSearchQuery) (rid st et : String) (w : TelemetryWorld)
    (pre post : List JobPosting) (bad : JobPosting) (msg : String)
    (docOf : JobPosting → String) (resOf : JobPosting → ApplicationResult)
    (hgood : ∀ j ∈ pre ++ post, goodStep env docOf resOf j)
    (hbad : env.tailorResume bad = .error (.known msg))
    (hjob : ∀ j ∈ pre ++ post, (resOf j).job = j)
    (hdistinct : ∀ j ∈ pre ++ post,
      ¬ (j.title = bad.title ∧ j.company = bad.company)) :
    ∃ out : RunOutput,
      Orchestrator.run env q rid st et (.ok (pre ++ bad :: post)) none w
        = (.ok out, { log := w.log ++ [out.summary],
                      store := persist_run_summary out.summary w.store })
      ∧ out.summary.results.length = (pre ++ bad :: post).length - 1
      ∧ out.summary.errors
          = [{ job_title := bad.title, company := bad.company,
               source := bad.source, error := "Tailoring failed: " ++ msg }]
      ∧ out.summary.result_count = out.summary.results.length
      ∧ ∀ r ∈ out.summary.results,
          ¬ (r.job_title = bad.title ∧ r.company = bad.company) := by
  have hpre : ∀ j ∈ pre, goodStep env docOf resOf j :=
    fun j hj => hgood j (List.mem_append_left _ hj)
  have hpost : ∀ j ∈ post, goodStep env docOf resOf j :=
    fun j hj => hgood j (List.mem_append_right _ hj)
  have hfold : (pre ++ bad :: post).foldl (Orchestrator.processJob env)
      ({ query := q, run_id := rid, started_at := st, results := [], errors := [] }, [])
      = ({ query := q, run_id := rid, started_at := st
           results := pre.map (recordOf env resOf) ++ post.map (recordOf env resOf)
           errors := [{ job_title := bad.title, company := bad.company,
                        source := bad.source,
                        error := "Tailoring failed: " ++ msg }] },
         pre.map (yieldedOf env resOf) ++ post.map (yieldedOf env resOf)) := by
    rw [List.foldl_append, foldl_processJob_good env docOf resOf pre _ _ hpre,
      List.foldl_cons, processJob_tailor_failure env _ _ bad msg hbad,
      foldl_processJob_good env docOf resOf post _ _ hpost]
    rfl
  refine ⟨{ yielded := pre.map (yieldedOf env resOf) ++ post.map (yieldedOf env resOf)
            summary := RunTracker.finish
              { query := q, run_id := rid, started_at := st
                results := pre.map (recordOf env resOf) ++ post.map (recordOf env resOf)
                errors := [{ job_title := bad.title, company := bad.company,
                             source := bad.source,
                             error := "Tailoring failed: " ++ msg }] } et },
    ?_, ?_, rfl, rfl, ?_⟩
  · unfold Orchestrator.run RunTracker.finishIO
    dsimp only
    rw [hfold]
  · show (List.map (recordOf env resOf) pre ++ List.map (recordOf env resOf) post).length
        = (pre ++ bad :: post).length - 1
    simp [List.length_append]
  · intro r hr
    have hr2 : r ∈ List.map (recordOf env resOf) pre
        ++ List.map (recordOf env resOf) post := hr
    rw [← List.map_append] at hr2
    obtain ⟨j, hjmem, rfl⟩ := List.mem_map.mp hr2
    intro hcon
    apply hdistinct j hjmem
    have hj := hjob j hjmem
    constructor
    · have : (recordOf env resOf j).job_title = (resOf j).job.title := rfl
      rw [← hcon.1, this, hj]
    · have : (recordOf env resOf j).company = (resOf j).job.company := rfl
      rw [← hcon.2, this, hj]

/-- A concrete environment whose tailor stage fails exactly on the posting
titled "B". -/
def exRunEnv : OrchestratorEnv :=
  { resume_text := "python developer"
    tailorResume := fun j =>
      if j.title = "B" then .error (.known "llm down") else .ok ("doc " ++ j.title)
    submitApplication := fun j _ =>
      .ok { job := j, status := "submitted", submitted_at := "t",
            notes := none, fit_score := none }
    embed := fun _ _ => none
    fallback_weight := 3/10 }

/-- First concrete posting (succeeds at every stage). -/
def exJobA : JobPosting := ⟨"A", "Acme", "linkedin", "python role"⟩

/-- Concrete posting whose tailoring fails. -/
def exJobB : JobPosting := ⟨"B", "Beta", "remoteok", "rust role"⟩

/-- Third concrete posting (succeeds at every stage). -/
def exJobC : JobPosting := ⟨"C", "Gamma", "remoteok", "go role"⟩

/-- Closed witness instantiating `C3_failure_isolation` on three
concrete postings whose middle one fails at tailoring. -/
theorem C3_failure_isolation_witness :
    ∃ out : RunOutput,
      Orchestrator.run exRunEnv ⟨["engineer"], ["Remote"], none⟩ "rid" "t0" "t1"
          (.ok ([exJobA] ++ exJobB :: [exJobC])) none ⟨[], ⟨[], [], []⟩⟩
        = (.ok out, { log := [] ++ [out.summary],
                      store := persist_run_summary out.summary ⟨[], [], []⟩ })
      ∧ out.summary.results.length = ([exJobA] ++ exJobB :: [exJobC]).length - 1
      ∧ out.summary.errors
          = [{ job_title := exJobB.title, company := exJobB.company,
               source := exJobB.source, error := "Tailoring failed: " ++ "llm down" }]
      ∧ out.summary.result_count = out.summary.results.length
      ∧ ∀ r ∈ out.summary.results,
          ¬ (r.job_title = exJobB.title ∧ r.company = exJobB.company) := by
  refine C3_failure_isolation exRunEnv ⟨["engineer"], ["Remote"], none⟩
    "rid" "t0" "t1" ⟨[], ⟨[], [], []⟩⟩ [exJobA] [exJobC] exJobB "llm down"
    (fun j => "doc " ++ j.title)
    (fun j => { job := j, status := "submitted", submitted_at := "t",
                notes := none, fit_score := none })
    ?_ rfl ?_ ?_
  · intro j hj
    simp only [List.cons_append, List.nil_append, List.mem_cons,
      List.not_mem_nil, or_false] at hj
    rcases hj with rfl | rfl <;> exact ⟨rfl, rfl⟩
  · intro j hj
    simp only [List.cons_append, List.nil_append, List.mem_cons,
      List.not_mem_nil, or_false] at hj
    rcases hj with rfl | rfl <;> rfl
  · intro j hj
    simp only [List.cons_append, List.nil_append, List.mem_cons,
      List.not_mem_nil, or_false] at hj
    rcases hj with rfl | rfl <;> decide

/-! ## web/server.py -/

/-- Embeds the `RunRecord` dataclass of server.py. -/
structure RunRecord where
  status : String
  total_applications : Nat
  notes : Option String
  results : List ApplicationResult
deriving DecidableEq

/-- The supervisor state guarded by `OrchestratorRunner._lock`. -/
structure RunnerState where
  active : Bool
  latest : Option RunRecord
deriving DecidableEq

/-- Embeds `OrchestratorRunner.start`: under the lock, raise
`RuntimeError("A run is already in progress.")` and change nothing when a
run is active; otherwise mark active and replace `_latest` with a fresh
record of status "running" before launching the thread.  The returned
pair is (state afterwards, raised error message if any). -/
def OrchestratorRunner.start (s : RunnerState) : RunnerState × Option String :=
  if s.active then (s, some "A run is already in progress.")
  else ({ active := true,
          latest := some { status := "running", total_applications := 0,
                           notes := none, results := [] } }, none)

/-- How the thread launched by `start` terminates: the pipeline completed
with a list of results, raised an `AgenticJobHunterError`, raised any
other exception, or was torn down by an exception that escapes both
handlers (only the `finally` block runs in that last case). -/
inductive RunCompletion where
  | completed : List ApplicationResult → RunCompletion
  | failedKnown : String → RunCompletion
  | failedUnexpected : String → RunCompletion
  | aborted : RunCompletion
deriving DecidableEq

/-- Embeds the completion handling of `OrchestratorRunner._execute_run`:
each terminating branch stores the terminal record, and the `finally`
block clears the active flag on every path. -/
def OrchestratorRunner.executeRunFinish (s : RunnerState) (c : RunCompletion) :
    RunnerState :=
  match c with
  | .completed results =>
    { active := false,
      latest := some { status := "completed", total_applications := results.length,
                       notes := none, results := results } }
  | .failedKnown msg =>
    { active := false,
      latest := some { status := "failed", total_applications := 0,
                       notes := some msg, results := [] } }
  | .failedUnexpected msg =>
    { active := false,
      latest := some { status := "failed", total_applications := 0,
                       notes := some ("Unexpected error: " ++ msg), results := [] } }
  | .aborted => { s with active := false }

/-- One serialized result row of the status payload. -/
structure ResultView where
  job_title : String
  company : String
  status : String
  submitted_at : String
  notes : Option String
deriving DecidableEq

/-- The serialized view of the latest run record. -/
structure LatestView where
  status : String
  total_applications : Nat
  notes : Option String
  results : List ResultView
deriving DecidableEq

/-- The payload `OrchestratorRunner.status` returns. -/
structure StatusPayload where
  running : Bool
  latest : Option LatestView
deriving DecidableEq

/-- Serializes a `RunRecord` the way `status` does. -/
def RunRecord.view (r : RunRecord) : LatestView :=
  { status := r.status
    total_applications := r.total_applications
    notes := r.notes
    results := r.results.map (fun result =>
      { job_title := result.job.title
        company := result.job.company
        status := result.status
        submitted_at := result.submitted_at
        notes := result.notes }) }

/-- Embeds `OrchestratorRunner.status`: read the flag and the latest
record under the lock and serialize them. -/
def OrchestratorRunner.status (s : RunnerState) : StatusPayload :=
  { running := s.active
    latest := s.latest.map RunRecord.view }

/-! ## load_recent_runs (telemetry.py) -/

/-- Embeds `load_recent_runs` (telemetry.py).  The event-log file is
`none` when `storage_path.exists()` is false, otherwise the list of its
lines; `parseJson` models `json.loads` on one line (`none` = raise
`JSONDecodeError`).  The `deque(maxlen=limit)` of stripped lines is the
last `limit` entries; blank entries are skipped, and lines that fail to
parse are skipped silently. -/
def load_recent_runs {J : Type} (parseJson : String → Option J) (limit : Nat)
    (file : Option (List String)) : List J :=
  match file with
  | none => []
  | some lines =>
    let buffer := (lines.map pyStrip).drop (lines.length - limit)
    buffer.filterMap (fun entry => if entry = "" then none else parseJson entry)

/-! ## Claim C4 and C5 theorems (run supervisor) -/

/-- C4 (confirmed): `start` on an active supervisor fails with the
"run already in progress" error and changes no state; on an inactive
supervisor it succeeds, marks active, and an immediately following second
`start` fails busy without changing the state the first call produced; and
every completion path of the launched run — success, recognized failure,
unexpected failure, even teardown reaching only the `finally` block —
clears the active flag. -/
theorem C4_single_flight (s : RunnerState) :
    (s.active = true →
      OrchestratorRunner.start s = (s, some "A run is already in progress."))
    ∧ (s.active = false →
        (OrchestratorRunner.start s).2 = none
        ∧ (OrchestratorRunner.start s).1.active = true
        ∧ OrchestratorRunner.start (OrchestratorRunner.start s).1
            = ((OrchestratorRunner.start s).1, some "A run is already in progress."))
    ∧ ∀ c : RunCompletion, (OrchestratorRunner.executeRunFinish s c).active = false := by
  refine ⟨fun h => ?_, fun h => ?_, fun c => ?_⟩
  · simp [OrchestratorRunner.start, h]
  · simp [OrchestratorRunner.start, h]
  · cases c <;> rfl

/-- Closed witness instantiating `C4_single_flight` on an idle supervisor:
two immediate `start` calls accept exactly one run and raise exactly one
busy error. -/
theorem C4_single_flight_witness :
    (OrchestratorRunner.start ⟨false, none⟩).2 = none
    ∧ (OrchestratorRunner.start ⟨false, none⟩).1.active = true
    ∧ OrchestratorRunner.start (OrchestratorRunner.start ⟨false, none⟩).1
        = ((OrchestratorRunner.start ⟨false, none⟩).1,
           some "A run is already in progress.") :=
  (C4_single_flight ⟨false, none⟩).2.1 rfl

/-- C5 counterexample: `start` replaces the previous completed run's
record with a fresh "running" placeholder, so `status` called while the
new run is in flight reports the placeholder — zero counts, no results —
and not the previous run's results as the claim states. -/
theorem C5_counterexample :
    OrchestratorRunner.status
        { active := false,
          latest := some { status := "completed", total_applications := 1,
                           notes := none,
                           results := [⟨exJobA, "submitted", "t", none, none⟩] } }
      = { running := false,
          latest := some { status := "completed", total_applications := 1,
                           notes := none,
                           results := [⟨"A", "Acme", "submitted", "t", none⟩] } }
    ∧ OrchestratorRunner.status
        (OrchestratorRunner.start
          { active := false,
            latest := some { status := "completed", total_applications := 1,
                             notes := none,
                             results := [⟨exJobA, "submitted", "t", none, none⟩] } }).1
      = { running := true,
          latest := some { status := "running", total_applications := 0,
                           notes := none, results := [] } }
    ∧ ({ status := "running", total_applications := 0, notes := none,
         results := [] } : LatestView)
      ≠ { status := "completed", total_applications := 1, notes := none,
          results := [⟨"A", "Acme", "submitted", "t", none⟩] } :=
  ⟨rfl, rfl, by decide⟩

/-- C5 (amended): `status` returns the active flag together with a
serialized view of the supervisor's latest run record.  When no run is
active this is the most recently completed run's terminal record, but an
accepted `start` replaces that record with a fresh "running" placeholder
(zero counts, no results), so while a run is in flight `status` reports
the placeholder rather than the previous run's results; once a run
completes, `status` reports its terminal record with counts and per-item
status/company/title/notes. -/
theorem C5_status_snapshot (s : RunnerState) :
    (OrchestratorRunner.status s).running = s.active
    ∧ (OrchestratorRunner.status s).latest = s.latest.map RunRecord.view
    ∧ (s.active = false →
        (OrchestratorRunner.status (OrchestratorRunner.start s).1).latest
          = some { status := "running", total_applications := 0,
                   notes := none, results := [] })
    ∧ ∀ results : List ApplicationResult,
        OrchestratorRunner.status
            (OrchestratorRunner.executeRunFinish s (.completed results))
          = { running := false,
              latest := some { status := "completed",
                               total_applications := results.length,
                               notes := none,
                               results := results.map (fun result =>
                                 { job_title := result.job.title
                                   company := result.job.company
                                   status := result.status
                                   submitted_at := result.submitted_at
                                   notes := result.notes }) } } := by
  refine ⟨rfl, rfl, fun h => ?_, fun results => rfl⟩
  simp [OrchestratorRunner.start, OrchestratorRunner.status, RunRecord.view, h]

/-- Closed witness instantiating `C5_status_snapshot` on an idle
supervisor. -/
theorem C5_status_snapshot_witness :
    (OrchestratorRunner.status (OrchestratorRunner.start ⟨false, none⟩).1).latest
      = some { status := "running", total_applications := 0,
               notes := none, results := [] } :=
  (C5_status_snapshot ⟨false, none⟩).2.2.1 rfl

/-! ## Claim C10 theorem (recent-runs query) -/

/-- C10 (confirmed): `load_recent_runs` is total — it returns `[]` when
the event-log file does not exist, returns at most `limit` entries, and on
a concrete file keeps only the last `limit` lines, returning the
successfully parsed records among them in file order while silently
skipping blank or malformed lines — so it can return fewer than `limit`
entries even when the file holds at least `limit` valid records. -/
theorem C10_load_recent_runs_total {J : Type} (parseJson : String → Option J)
    (limit : Nat) (lines : List String) :
    load_recent_runs parseJson limit none = ([] : List J)
    ∧ (load_recent_runs parseJson limit (some lines)).length ≤ limit
    ∧ load_recent_runs
        (fun s => if s = "r1" then some 1 else if s = "r2" then some 2
          else if s = "r3" then some 3 else none)
        4 (some ["r1", "", "r2", "bad", "r3"]) = [2, 3]
    ∧ load_recent_runs
        (fun s => if s = "r1" then some 1 else if s = "r2" then some 2
          else if s = "r3" then some 3 else none)
        2 (some ["r1", "r2", "bad"]) = [2] := by
  refine ⟨rfl, ?_, by decide, by decide⟩
  calc (load_recent_runs parseJson limit (some lines)).length
      ≤ ((lines.map pyStrip).drop (lines.length - limit)).length :=
        List.length_filterMap_le _ _
    _ ≤ limit := by
        rw [List.length_drop, List.length_map]
        omega
